import Mathlib

/-!
Verification of the usage-metering and license-entitlement core of the
resume-bullet-generator service.

The development shallowly embeds the TypeScript source:

* `src/lib/redis.ts` — the key-value store layer (usage counters with TTLs,
  license records, secondary indexes, daily stats).  The remote Redis store is
  modelled as an explicit `Store` record of maps, with one field per key
  namespace (`usage:`, `license:`, `email:`, `order:`, `stats:daily:`); each
  exported function becomes an explicit state-passing Lean function.
* `src/lib/prompts.ts` — `parseBulletPoints`, the parser that turns the raw
  text-generation output into a list of bullets (regexes are unrolled into
  character-list functions).
* `src/lib/openai.ts` — `validateInput` (length checks); the network call
  `generateCompletion` is an external collaborator and enters the model as an
  `Option String` input (`none` = the call threw).
* `src/lib/lemonsqueezy.ts` / `lemonsqueezy-license.ts` — `getTierFromVariant`;
  the external license-validation API call `validateLicenseKey` enters the
  model as a function-valued input, and HMAC signature verification enters the
  webhook model as a function-valued input (only the handler's use of the
  verdict matters to the properties proved here).
* `src/app/api/generate/route.ts` — the `POST` handler, split exactly at the
  source's seam into the entitlement decision (the `if (licenseKey)` chain)
  and the post-entitlement generation/charging tail.
* `src/app/api/webhook/route.ts` — the `POST` handler and
  `handleOrderCreated`; the random license-key minting (`generateLicenseKey`)
  enters the model as a `String` input.
-/

/-- Paid tiers persisted in license records (`PaidTierKey` in `redis.ts`). -/
inductive PaidTier where
  | basic
  | lifetime
deriving DecidableEq, Repr

/-- Response tier of the generate endpoint (`"free" | "basic" | "lifetime"`). -/
inductive Tier where
  | free
  | basic
  | lifetime
deriving DecidableEq, Repr

/-- License record stored under `license:{licenseKey}` (`LicenseData` in
`redis.ts`).  `generationsUsed` is an `Int`, matching JS number arithmetic in
`checkLicenseValidity` (no truncation at zero during subtraction). -/
structure LicenseData where
  tier : PaidTier
  email : String
  purchasedAt : String
  generationsUsed : Int
  orderId : String
deriving DecidableEq, Repr

/-- The remote key-value store, one field per key namespace of `REDIS_KEYS`.
Counters absent from the store read as 0 (`getUsageCount` returns `count ?? 0`
and `INCR` creates a key at 1, so counter values are naturally `Nat`).
`usageTtl`/`statsTtl` record the TTL attached by `EXPIRE`, `none` = no expiry. -/
structure Store where
  usage : String → Nat
  usageTtl : String → Option Nat
  license : String → Option LicenseData
  emailIdx : String → Option String
  orderIdx : String → Option String
  stats : String → Nat
  statsTtl : String → Option Nat

/-- The store with no keys set. -/
def Store.empty : Store :=
  ⟨fun _ => 0, fun _ => none, fun _ => none, fun _ => none, fun _ => none,
   fun _ => 0, fun _ => none⟩

/-- `FREE_TIER.maxGenerations` in `redis.ts`. -/
def FREE_TIER_maxGenerations : Nat := 3

/-- `FREE_TIER.ttlSeconds` in `redis.ts` (24 hours). -/
def FREE_TIER_ttlSeconds : Nat := 86400

/-- `PAID_TIERS.basic.generations` in `redis.ts`. -/
def PAID_TIERS_basic_generations : Int := 50

/-- Extended integers modelling the JS numbers used for tier caps:
`PAID_TIERS.lifetime.generations` is the float `Infinity`, every other value
in play is an integer. -/
inductive Gen where
  | fin : Int → Gen
  | inf
deriving DecidableEq, Repr

/-- JS subtraction of a finite number from a cap: `Infinity - n = Infinity`. -/
def Gen.sub : Gen → Int → Gen
  | .fin a, b => .fin (a - b)
  | .inf, _ => .inf

/-- JS comparison `x > 0` for a cap value (`Infinity > 0` is true). -/
def Gen.isPos : Gen → Bool
  | .fin a => decide (0 < a)
  | .inf => true

/-- JS `Math.max(0, x)` (`Math.max(0, Infinity) = Infinity`). -/
def Gen.max0 : Gen → Gen
  | .fin a => .fin (max 0 a)
  | .inf => .inf

/-- Whether a JS cap value is a finite number (`Infinity` is not). -/
def Gen.finite : Gen → Bool
  | .fin _ => true
  | .inf => false

/-- `PAID_TIERS[tier].generations` in `redis.ts`: basic = 50, lifetime =
`Infinity`. -/
def tierGenerations : PaidTier → Gen
  | .basic => .fin PAID_TIERS_basic_generations
  | .lifetime => .inf

/-- `getUsageCount` in `redis.ts`: read the counter, absent reads as 0. -/
def getUsageCount (st : Store) (identifier : String) : Nat :=
  st.usage identifier

/-- `incrementUsage` in `redis.ts`: atomically increment the counter
(creating it at 1), and if this was the first increment (`newCount === 1`)
and the caller is not paid, attach the free-tier TTL.  On any other increment
the TTL is not touched. -/
def incrementUsage (identifier : String) (isPaid : Bool) (st : Store) :
    Nat × Store :=
  let newCount := st.usage identifier + 1
  let st1 : Store :=
    { st with usage := fun k => if k = identifier then newCount else st.usage k }
  if isPaid = false ∧ newCount = 1 then
    (newCount,
     { st1 with usageTtl := fun k =>
         if k = identifier then some FREE_TIER_ttlSeconds else st.usageTtl k })
  else
    (newCount, st1)

/-- `getLicense` in `redis.ts`. -/
def getLicense (st : Store) (licenseKey : String) : Option LicenseData :=
  st.license licenseKey

/-- `createLicense` in `redis.ts`: store the record with `generationsUsed = 0`,
then write the `email → licenseKey` and `orderId → licenseKey` secondary
indexes. -/
def createLicense (licenseKey : String) (tier : PaidTier)
    (email purchasedAt orderId : String) (st : Store) : Store :=
  let licenseData : LicenseData := ⟨tier, email, purchasedAt, 0, orderId⟩
  { st with
    license := fun k => if k = licenseKey then some licenseData else st.license k
    emailIdx := fun e => if e = email then some licenseKey else st.emailIdx e
    orderIdx := fun o => if o = orderId then some licenseKey else st.orderIdx o }

/-- `incrementLicenseUsage` in `redis.ts`: read-modify-write bump of
`generationsUsed`; unknown key returns `null` and writes nothing. -/
def incrementLicenseUsage (licenseKey : String) (st : Store) :
    Option LicenseData × Store :=
  match getLicense st licenseKey with
  | none => (none, st)
  | some license =>
    let updatedLicense : LicenseData :=
      { license with generationsUsed := license.generationsUsed + 1 }
    (some updatedLicense,
     { st with license := fun k =>
         if k = licenseKey then some updatedLicense else st.license k })

/-- Result shape of `checkLicenseValidity` in `redis.ts`. -/
structure ValidityResult where
  isValid : Bool
  remaining : Gen
  tier : Option PaidTier
deriving DecidableEq, Repr

/-- `checkLicenseValidity` in `redis.ts`: unknown key yields
`{isValid: false, remaining: 0, tier: null}`; otherwise
`remaining = PAID_TIERS[tier].generations - generationsUsed`,
`isValid = remaining > 0`, and the reported remaining is
`Math.max(0, remaining)`. -/
def checkLicenseValidity (st : Store) (licenseKey : String) : ValidityResult :=
  match getLicense st licenseKey with
  | none => ⟨false, .fin 0, none⟩
  | some license =>
    let remaining := (tierGenerations license.tier).sub license.generationsUsed
    ⟨remaining.isPos, remaining.max0, some license.tier⟩

/-- `trackDailyGeneration` in `redis.ts`: increment the date-bucketed stats
counter and (re)set its 90-day TTL.  The date argument is an input here since
the source defaults it from the wall clock. -/
def trackDailyGeneration (today : String) (st : Store) : Store :=
  { st with
    stats := fun d => if d = today then st.stats d + 1 else st.stats d
    statsTtl := fun d => if d = today then some (86400 * 90) else st.statsTtl d }

/-- JS `String.prototype.trim` on a character list: drop leading and
trailing whitespace.  (The byte-position-based core string functions are
avoided throughout so every definition evaluates by kernel reduction.) -/
def trimL (cs : List Char) : List Char :=
  ((cs.dropWhile Char.isWhitespace).reverse.dropWhile Char.isWhitespace).reverse

/-- JS `String.prototype.trim`. -/
def trimStr (s : String) : String :=
  (trimL s.toList).asString

/-- JS `String.prototype.toLowerCase`. -/
def toLowerStr (s : String) : String :=
  (s.toList.map Char.toLower).asString

/-- JS `String.prototype.startsWith` on character lists. -/
def leadsWith (s pat : List Char) : Bool :=
  decide (s.take pat.length = pat)

/-- JS `String.prototype.includes` on character lists: some suffix of `s`
starts with `pat`. -/
def containsL (pat : List Char) : List Char → Bool
  | [] => decide (pat = [])
  | c :: rest => leadsWith (c :: rest) pat || containsL pat rest

/-- JS `String.prototype.split` with a one-character separator (the
`split("\n")` of `parseBulletPoints`): empty pieces are kept. -/
def splitOnChar (sep : Char) : List Char → List (List Char)
  | [] => [[]]
  | c :: rest =>
    let r := splitOnChar sep rest
    if c = sep then [] :: r
    else
      match r with
      | [] => [[c]]
      | h :: t => (c :: h) :: t

/-- The regex `^[\d]+[.)]\s*` replacement in `parseBulletPoints`
(`prompts.ts`): drop a leading run of digits followed by `.` or `)` and any
following whitespace; leave the line unchanged when the pattern does not
match. -/
def stripNumbering (cs : List Char) : List Char :=
  let digits := cs.takeWhile Char.isDigit
  let rest := cs.dropWhile Char.isDigit
  if digits = [] then cs
  else
    match rest with
    | c :: rest2 =>
      if c = '.' ∨ c = ')' then rest2.dropWhile Char.isWhitespace else cs
    | [] => cs

/-- The regex `^[-•*]\s*` replacement in `parseBulletPoints`: drop one leading
bullet character and any following whitespace. -/
def stripBulletChar (cs : List Char) : List Char :=
  match cs with
  | c :: rest =>
    if c = '-' ∨ c = '•' ∨ c = '*' then rest.dropWhile Char.isWhitespace else cs
  | [] => cs

/-- The case-insensitive regex `^bullet\s*:?\s*` replacement in
`parseBulletPoints`: drop a leading `bullet` (any case), whitespace, an
optional colon and further whitespace. -/
def stripBulletWord (cs : List Char) : List Char :=
  if (cs.take 6).map Char.toLower = "bullet".toList then
    let rest := (cs.drop 6).dropWhile Char.isWhitespace
    match rest with
    | c :: rest2 =>
      if c = ':' then rest2.dropWhile Char.isWhitespace else rest
    | [] => rest
  else cs

/-- The second `.map` of `parseBulletPoints`: the three list-marker
replacements in source order, then `trim`. -/
def cleanLine (cs : List Char) : String :=
  (trimL (stripBulletWord (stripBulletChar (stripNumbering cs)))).asString

/-- The `.filter` predicate of `parseBulletPoints`: drop empty lines,
meta-commentary openers, lines mentioning "bullet point", and lines shorter
than 20 characters. -/
def keepLine (line : String) : Bool :=
  if line = "" then false
  else if leadsWith (line.toList.map Char.toLower) "here are".toList then false
  else if leadsWith (line.toList.map Char.toLower) "based on".toList then false
  else if containsL "bullet point".toList (line.toList.map Char.toLower) then
    false
  else decide (20 ≤ line.length)

/-- `parseBulletPoints` in `prompts.ts`: split the raw model output on
newlines, trim, strip list-marker prefixes, filter junk lines, and keep at
most 10 bullets. -/
def parseBulletPoints (response : String) : List String :=
  (((splitOnChar '\n' response.toList).map (fun l => cleanLine (trimL l))).filter
    keepLine).take 10

/-- `validateInput` in `openai.ts`: length window checks on the two text
inputs (50–8000 and 20–4000 characters). -/
def validateInput (jobDescription experience : String) : Bool :=
  if jobDescription.length < 50 then false
  else if experience.length < 20 then false
  else if 8000 < jobDescription.length then false
  else if 4000 < experience.length then false
  else true

/-- A structurally well-formed generate request body, before Zod validation
(`unknown` bodies that do not even have this shape take the same 400 path as
a failed parse). -/
structure RawReq where
  jobDescription : String
  experience : String
  licenseKey : Option String
deriving DecidableEq, Repr

/-- A generate request after Zod validation (`generateRequestSchema` in
`validation.ts`). -/
structure GenReq where
  jobDescription : String
  experience : String
  licenseKey : Option String
deriving DecidableEq, Repr

/-- `generateRequestSchema` in `validation.ts`: length bounds are checked on
the raw strings, then both texts are trimmed; a present license key is
trimmed and an empty result becomes absent (`val?.trim() || undefined`). -/
def zodParse (r : RawReq) : Option GenReq :=
  if 50 ≤ r.jobDescription.length ∧ r.jobDescription.length ≤ 8000
      ∧ 20 ≤ r.experience.length ∧ r.experience.length ≤ 4000 then
    some ⟨trimStr r.jobDescription, trimStr r.experience,
      match r.licenseKey with
      | none => none
      | some k => if trimStr k = "" then none else some (trimStr k)⟩
  else none

/-- Error codes of the generate endpoint (`ERRORS` in `validation.ts`). -/
inductive ErrCode where
  | VALIDATION_ERROR
  | LIMIT_REACHED
  | INVALID_LICENSE
  | GENERATION_FAILED
  | RATE_LIMITED
  | INTERNAL_ERROR
deriving DecidableEq, Repr

/-- Body of a successful generate response (`GenerateResponse`). -/
structure OkBody where
  bullets : List String
  remaining : Int
  tier : Tier
deriving DecidableEq, Repr

/-- A generate response body: success payload or error code. -/
inductive RespBody where
  | ok : OkBody → RespBody
  | err : ErrCode → RespBody
deriving DecidableEq, Repr

/-- An HTTP response of the generate endpoint: status and JSON body. -/
structure Resp where
  status : Nat
  body : RespBody
deriving DecidableEq, Repr

/-- Result of the external `validateLicenseKey` call
(`lemonsqueezy-license.ts`), restricted to the fields the generate route
consumes: `isValid`, `tier` (null when the product variant maps to no
internal tier) and the raw `status` string. -/
structure LSStatus where
  isValid : Bool
  tier : Option PaidTier
  status : String
deriving DecidableEq, Repr

/-- Outcome of the entitlement chain in `generate/route.ts` (the
`if (licenseKey)` / `else` block): either an early error response, or
permission to generate carrying the values the tail of the handler uses —
whether a license key was presented, the resolved tier, the identifier to
charge, and the remaining count computed before generation. -/
inductive Entitlement where
  | deny : Resp → Entitlement
  | allow : Bool → Tier → String → Int → Entitlement
deriving DecidableEq, Repr

/-- The entitlement chain of `POST /api/generate` (`route.ts` lines 147–202).
With a license key: external validation, the null-tier / invalid check, the
unusable-status check, then the basic-tier quota check (lifetime is always
allowed with remaining 999).  Without one: the free-tier IP counter check
against the cap of 3. -/
def decideEntitlement (validateLicense : String → LSStatus) (clientIp : String)
    (req : GenReq) (st : Store) : Entitlement :=
  match req.licenseKey with
  | some licenseKey =>
    let licenseStatus := validateLicense licenseKey
    if licenseStatus.isValid = false ∨ licenseStatus.tier = none then
      .deny ⟨402, .err .INVALID_LICENSE⟩
    else
      match licenseStatus.tier with
      | none => .deny ⟨402, .err .INVALID_LICENSE⟩
      | some t =>
        if (["expired", "disabled", "revoked"] : List String).contains
            (toLowerStr licenseStatus.status) then
          .deny ⟨402, .err .INVALID_LICENSE⟩
        else
          match t with
          | .basic =>
            let used := getUsageCount st licenseKey
            let remaining : Int := max 0 (PAID_TIERS_basic_generations - used)
            if remaining ≤ 0 then .deny ⟨402, .err .LIMIT_REACHED⟩
            else .allow true .basic licenseKey remaining
          | .lifetime => .allow true .lifetime licenseKey 999
  | none =>
    let usageCount := getUsageCount st clientIp
    if FREE_TIER_maxGenerations ≤ usageCount then
      .deny ⟨402, .err .LIMIT_REACHED⟩
    else
      .allow false .free clientIp
        ((FREE_TIER_maxGenerations : Int) - usageCount - 1)

/-- Whether the external text generation failed from the route's point of
view: the call threw (`none`) or its output parsed to zero bullets. -/
def genFailed (genResult : Option String) : Bool :=
  match genResult with
  | none => true
  | some content => decide ((parseBulletPoints content).length = 0)

/-- The tail of `POST /api/generate` after the entitlement decision
(`route.ts` lines 204–259): call the text-generation collaborator (`none`
models a thrown error), parse bullets, fail with `GENERATION_FAILED` on an
empty parse, otherwise charge the matching usage counter, recompute the
remaining count for paid users, bump the daily stats, and build the 200
response (999 stands for unlimited on the wire). -/
def afterEntitlement (licensePresent : Bool) (tier : Tier)
    (identifier : String) (remaining : Int) (genResult : Option String)
    (today : String) (st : Store) : Resp × Store :=
  match genResult with
  | none => (⟨500, .err .GENERATION_FAILED⟩, st)
  | some content =>
    let bullets := parseBulletPoints content
    if bullets.length = 0 then (⟨500, .err .GENERATION_FAILED⟩, st)
    else
      let charged :=
        if licensePresent = true ∧ tier ≠ .free then
          ((incrementUsage identifier true st).2,
           if tier = .lifetime then (999 : Int) else max 0 (remaining - 1))
        else
          ((incrementUsage identifier false st).2, remaining)
      let st2 := trackDailyGeneration today charged.1
      (⟨200, .ok ⟨bullets,
          if tier = .lifetime then 999 else charged.2, tier⟩⟩, st2)

/-- `POST /api/generate` (`route.ts`).  Inputs standing for external
collaborators: `rateLimited` is the verdict of the in-process rate limiter
for this IP, `body` is the JSON-parsed request body (`none` = unparseable),
`validateLicense` is the external licensing API, `genResult` is the
text-generation output (`none` = the call threw), `today` is the stats
bucket date. -/
def generatePOST (rateLimited : Bool) (clientIp : String) (body : Option RawReq)
    (validateLicense : String → LSStatus) (genResult : Option String)
    (today : String) (st : Store) : Resp × Store :=
  if rateLimited then (⟨429, .err .RATE_LIMITED⟩, st)
  else
    match body with
    | none => (⟨400, .err .VALIDATION_ERROR⟩, st)
    | some raw =>
      match zodParse raw with
      | none => (⟨400, .err .VALIDATION_ERROR⟩, st)
      | some req =>
        if validateInput req.jobDescription req.experience = false then
          (⟨400, .err .VALIDATION_ERROR⟩, st)
        else
          match decideEntitlement validateLicense clientIp req st with
          | .deny r => (r, st)
          | .allow licensePresent tier identifier remaining =>
            afterEntitlement licensePresent tier identifier remaining
              genResult today st

/-- `PRODUCT_VARIANTS` in `lemonsqueezy.ts`: the two configured variant id
strings (from environment), mapped to the basic and lifetime tiers. -/
structure VariantConfig where
  basic : String
  lifetime : String
deriving DecidableEq, Repr

/-- `getTierFromVariant` in `lemonsqueezy.ts`: stringify the numeric variant
id and compare against the two configured variants; anything else maps to no
tier. -/
def getTierFromVariant (cfg : VariantConfig) (variantId : Int) :
    Option PaidTier :=
  let variantStr := toString variantId
  if variantStr = cfg.basic then some .basic
  else if variantStr = cfg.lifetime then some .lifetime
  else none

/-- The order fields of a parsed webhook payload that `handleOrderCreated`
consumes (`data.id` and `data.attributes.{status, user_email,
first_order_item.variant_id, created_at}`). -/
structure WebhookOrderData where
  id : String
  status : String
  userEmail : String
  variantId : Int
  createdAt : String
deriving DecidableEq, Repr

/-- A parsed webhook payload: the event name from `meta.event_name` and the
order data (`parseWebhookPayload` already rejected payloads missing either). -/
structure WebhookPayload where
  eventName : String
  data : WebhookOrderData
deriving DecidableEq, Repr

/-- `handleOrderCreated` in `webhook/route.ts`: skip unpaid orders, skip
orders whose variant maps to no tier, otherwise mint a license key (the
random `generateLicenseKey()` result is the `mintedKey` input here) and
create the license record with its two secondary indexes. -/
def handleOrderCreated (cfg : VariantConfig) (mintedKey : String)
    (data : WebhookOrderData) (st : Store) : Store :=
  if data.status ≠ "paid" then st
  else
    match getTierFromVariant cfg data.variantId with
    | none => st
    | some tier =>
      createLicense mintedKey tier data.userEmail data.createdAt data.id st

/-- `POST /api/webhook` (`webhook/route.ts`).  `verify` stands for
`verifyWebhookSignature` (HMAC over the raw body against the shared secret)
and `parse` for `parseWebhookPayload` (JSON decoding); both are inputs
because their verdicts, not their internals, drive the handler.  Missing or
failing signature → 401 before anything else; unparseable payload → 400;
`order_created` dispatches to `handleOrderCreated`; `order_refunded` and
unrecognized events only log, leaving the store untouched; every
authenticated, parsed delivery is acknowledged with 200. -/
def webhookPOST (verify : String → String → Bool)
    (parse : String → Option WebhookPayload) (cfg : VariantConfig)
    (mintedKey : String) (signature : Option String) (rawBody : String)
    (st : Store) : Nat × Store :=
  match signature with
  | none => (401, st)
  | some s =>
    if verify rawBody s = false then (401, st)
    else
      match parse rawBody with
      | none => (400, st)
      | some payload =>
        if payload.eventName = "order_created" then
          (200, handleOrderCreated cfg mintedKey payload.data st)
        else (200, st)

/-- A stored basic-tier license with all 50 generations used. -/
def licBasic50 : LicenseData := ⟨.basic, "a@b.c", "2024-01-01", 50, "o1"⟩

/-- A stored basic-tier license with 49 generations used. -/
def licBasic49 : LicenseData := ⟨.basic, "d@e.f", "2024-01-02", 49, "o2"⟩

/-- A stored lifetime-tier license. -/
def licLife : LicenseData := ⟨.lifetime, "l@b.c", "2024-02-02", 0, "o3"⟩

/-- A store holding the three sample licenses above. -/
def sampleLicStore : Store :=
  { Store.empty with license := fun k =>
      if k = "K50" then some licBasic50
      else if k = "K49" then some licBasic49
      else if k = "LIFE" then some licLife
      else none }

/-- C8: `incrementUsage` returns the bumped count, and attaches the
86400-second free-tier TTL to the counter exactly when the increment result
is 1 and the paid flag is false; in every other case (and for every other
key) the TTL field is left exactly as it was — never reset or extended. -/
theorem incrementUsage_ttl_once (identifier : String) (isPaid : Bool)
    (st : Store) :
    (incrementUsage identifier isPaid st).1 = st.usage identifier + 1 ∧
    ((incrementUsage identifier isPaid st).2).usage identifier =
      st.usage identifier + 1 ∧
    ((incrementUsage identifier isPaid st).2).usageTtl identifier =
      (if isPaid = false ∧ (incrementUsage identifier isPaid st).1 = 1
        then some FREE_TIER_ttlSeconds else st.usageTtl identifier) ∧
    (∀ k, k ≠ identifier →
      ((incrementUsage identifier isPaid st).2).usageTtl k = st.usageTtl k) := by
  by_cases h : isPaid = false ∧ st.usage identifier + 1 = 1
  · have e : incrementUsage identifier isPaid st =
        (st.usage identifier + 1,
         { st with
           usage := fun k =>
             if k = identifier then st.usage identifier + 1 else st.usage k
           usageTtl := fun k =>
             if k = identifier then some FREE_TIER_ttlSeconds
             else st.usageTtl k }) := by
      unfold incrementUsage
      rw [if_pos h]
    rw [e]
    refine ⟨rfl, by simp, ?_, ?_⟩
    · simp [h.1, h.2]
    · intro k hk
      simp [hk]
  · have e : incrementUsage identifier isPaid st =
        (st.usage identifier + 1,
         { st with
           usage := fun k =>
             if k = identifier then st.usage identifier + 1 else st.usage k }) := by
      unfold incrementUsage
      rw [if_neg h]
    rw [e]
    exact ⟨rfl, by simp, (if_neg h).symm, fun k hk => rfl⟩

/-- Witness for `incrementUsage_ttl_once`: a first free increment of a fresh
counter attaches the 24h TTL, and a second increment leaves it at the same
value. -/
theorem incrementUsage_ttl_once_witness :
    ((incrementUsage "1.2.3.4" false Store.empty).2).usageTtl "1.2.3.4" =
      some 86400 ∧
    ((incrementUsage "1.2.3.4" false
        (incrementUsage "1.2.3.4" false Store.empty).2).2).usageTtl "1.2.3.4" =
      some 86400 := by
  constructor
  · exact ((incrementUsage_ttl_once "1.2.3.4" false Store.empty).2.2.1).trans
      (by decide)
  · exact ((incrementUsage_ttl_once "1.2.3.4" false
      (incrementUsage "1.2.3.4" false Store.empty).2).2.2.1).trans (by decide)

/-- C6: `checkLicenseValidity` on an unknown key yields
`{isValid: false, remaining: 0, tier: null}`; on a stored basic-tier license
it reports `remaining = max 0 (50 - generationsUsed)`, is valid exactly when
`50 - generationsUsed > 0`, and echoes the basic tier. -/
theorem checkLicenseValidity_basic_spec (st : Store) (licenseKey : String) :
    (getLicense st licenseKey = none →
      checkLicenseValidity st licenseKey = ⟨false, .fin 0, none⟩) ∧
    (∀ lic, getLicense st licenseKey = some lic → lic.tier = .basic →
      (checkLicenseValidity st licenseKey).remaining =
        .fin (max 0 (50 - lic.generationsUsed)) ∧
      ((checkLicenseValidity st licenseKey).isValid = true ↔
        0 < 50 - lic.generationsUsed) ∧
      (checkLicenseValidity st licenseKey).tier = some .basic) := by
  constructor
  · intro h
    simp [checkLicenseValidity, h]
  · intro lic hlic htier
    simp [checkLicenseValidity, hlic, htier, tierGenerations, Gen.sub,
      Gen.isPos, Gen.max0, PAID_TIERS_basic_generations]

/-- Witness for `checkLicenseValidity_basic_spec`: a basic license at 50 used
is invalid with remaining 0, at 49 used is valid with remaining 1, and an
unknown key yields the null result. -/
theorem checkLicenseValidity_basic_spec_witness :
    (checkLicenseValidity sampleLicStore "K50").isValid = false ∧
    (checkLicenseValidity sampleLicStore "K50").remaining = .fin 0 ∧
    (checkLicenseValidity sampleLicStore "K49").isValid = true ∧
    (checkLicenseValidity sampleLicStore "K49").remaining = .fin 1 ∧
    checkLicenseValidity sampleLicStore "NOPE" = ⟨false, .fin 0, none⟩ := by
  have h50 := (checkLicenseValidity_basic_spec sampleLicStore "K50").2
    licBasic50 (by decide) rfl
  have h49 := (checkLicenseValidity_basic_spec sampleLicStore "K49").2
    licBasic49 (by decide) rfl
  have hno := (checkLicenseValidity_basic_spec sampleLicStore "NOPE").1
    (by decide)
  refine ⟨?_, h50.1.trans (by decide), ?_, h49.1.trans (by decide), hno⟩
  · have := h50.2.1
    simp [licBasic50] at this
    simp [this]
  · exact h49.2.1.mpr (by decide)

/-- Counterexample to C7: for a stored lifetime-tier license,
`checkLicenseValidity` reports the remaining quota as the JS `Infinity`
value — not a finite integer, and in particular not 998 or 999. -/
theorem checkLicenseValidity_lifetime_not_finite :
    (checkLicenseValidity sampleLicStore "LIFE").remaining.finite = false ∧
    (checkLicenseValidity sampleLicStore "LIFE").remaining ≠ Gen.fin 998 ∧
    (checkLicenseValidity sampleLicStore "LIFE").remaining ≠ Gen.fin 999 := by
  decide

/-- C7 (amended): for every stored lifetime-tier license,
`checkLicenseValidity` returns `isValid = true` and the non-finite `Infinity`
remaining; the finite 999 sentinel is applied only by the HTTP routes when
building wire responses. -/
theorem checkLicenseValidity_lifetime_inf (st : Store) (licenseKey : String)
    (lic : LicenseData) (h : getLicense st licenseKey = some lic)
    (htier : lic.tier = .lifetime) :
    checkLicenseValidity st licenseKey = ⟨true, Gen.inf, some .lifetime⟩ := by
  simp [checkLicenseValidity, h, htier, tierGenerations, Gen.sub, Gen.isPos,
    Gen.max0]

/-- Witness for `checkLicenseValidity_lifetime_inf` at the sample store. -/
theorem checkLicenseValidity_lifetime_inf_witness :
    checkLicenseValidity sampleLicStore "LIFE" = ⟨true, Gen.inf, some .lifetime⟩ :=
  checkLicenseValidity_lifetime_inf sampleLicStore "LIFE" licLife (by decide) rfl

/-- C10: on a stored license, `incrementLicenseUsage` returns and stores the
record with `generationsUsed` bumped by exactly 1 and every other field
unchanged, touching no other key and no other store namespace; on an unknown
key it returns `null` and performs no write at all. -/
theorem incrementLicenseUsage_spec (st : Store) (licenseKey : String) :
    (getLicense st licenseKey = none →
      incrementLicenseUsage licenseKey st = (none, st)) ∧
    (∀ lic, getLicense st licenseKey = some lic →
      (incrementLicenseUsage licenseKey st).1 =
        some { lic with generationsUsed := lic.generationsUsed + 1 } ∧
      ((incrementLicenseUsage licenseKey st).2).license licenseKey =
        some { lic with generationsUsed := lic.generationsUsed + 1 } ∧
      (∀ k, k ≠ licenseKey →
        ((incrementLicenseUsage licenseKey st).2).license k = st.license k) ∧
      ((incrementLicenseUsage licenseKey st).2).usage = st.usage ∧
      ((incrementLicenseUsage licenseKey st).2).usageTtl = st.usageTtl ∧
      ((incrementLicenseUsage licenseKey st).2).emailIdx = st.emailIdx ∧
      ((incrementLicenseUsage licenseKey st).2).orderIdx = st.orderIdx ∧
      ((incrementLicenseUsage licenseKey st).2).stats = st.stats ∧
      ((incrementLicenseUsage licenseKey st).2).statsTtl = st.statsTtl) := by
  constructor
  · intro h
    simp [incrementLicenseUsage, h]
  · intro lic hlic
    simp [incrementLicenseUsage, hlic]
    intro k hk
    simp [hk]

/-- Witness for `incrementLicenseUsage_spec`: bumping the 49-used basic
license yields 50 used with all other fields intact, and an unknown key is a
no-op. -/
theorem incrementLicenseUsage_spec_witness :
    (incrementLicenseUsage "K49" sampleLicStore).1 =
      some ⟨.basic, "d@e.f", "2024-01-02", 50, "o2"⟩ ∧
    ((incrementLicenseUsage "K49" sampleLicStore).2).license "K49" =
      some ⟨.basic, "d@e.f", "2024-01-02", 50, "o2"⟩ ∧
    ((incrementLicenseUsage "K49" sampleLicStore).2).license "K50" =
      some licBasic50 ∧
    incrementLicenseUsage "NOPE" sampleLicStore = (none, sampleLicStore) := by
  have h := (incrementLicenseUsage_spec sampleLicStore "K49").2 licBasic49
    (by decide)
  have hno := (incrementLicenseUsage_spec sampleLicStore "NOPE").1 (by decide)
  exact ⟨h.1.trans (by decide), h.2.1.trans (by decide),
    (h.2.2.1 "K50" (by decide)).trans (by decide), hno⟩

/-- C5: an inbound webhook request with a missing `X-Signature` header, or
one whose signature fails verification, is answered with 401 and the store
is returned exactly as it was — zero state mutation — whatever the payload,
parser behaviour, variant configuration or minted key. -/
theorem webhookPOST_unauthenticated_no_mutation
    (verify : String → String → Bool) (parse : String → Option WebhookPayload)
    (cfg : VariantConfig) (mintedKey : String) (signature : Option String)
    (rawBody : String) (st : Store) :
    (signature = none →
      webhookPOST verify parse cfg mintedKey signature rawBody st = (401, st)) ∧
    (∀ s, signature = some s → verify rawBody s = false →
      webhookPOST verify parse cfg mintedKey signature rawBody st = (401, st)) := by
  constructor
  · intro h
    subst h
    rfl
  · intro s hs hv
    subst hs
    simp [webhookPOST, hv]

/-- A concrete variant configuration for webhook runs: variant 111 is basic,
variant 222 is lifetime. -/
def cexCfg : VariantConfig := ⟨"111", "222"⟩

/-- A concrete paid basic-variant order. -/
def cexOrder : WebhookOrderData := ⟨"ord1", "paid", "buyer@x.io", 111, "2024-03-03"⟩

/-- A concrete parsed `order_created` payload for `cexOrder`. -/
def cexPayload : WebhookPayload := ⟨"order_created", cexOrder⟩

/-- A parser stub that decodes every raw body to `cexPayload` (the replayed
delivery carries the identical body, so both deliveries parse alike). -/
def cexParse : String → Option WebhookPayload := fun _ => some cexPayload

/-- A signature verifier stub that accepts (the replayed delivery carries the
identical valid signature). -/
def cexVerify : String → String → Bool := fun _ _ => true

/-- Witness for `webhookPOST_unauthenticated_no_mutation`: a missing header
and a rejected signature both 401 without touching the sample store. -/
theorem webhookPOST_unauthenticated_no_mutation_witness :
    webhookPOST cexVerify cexParse cexCfg "AAAA-AAAA-AAAA-AAAA" none "body"
      sampleLicStore = (401, sampleLicStore) ∧
    webhookPOST (fun _ _ => false) cexParse cexCfg "AAAA-AAAA-AAAA-AAAA"
      (some "deadbeef") "body" sampleLicStore = (401, sampleLicStore) := by
  constructor
  · exact (webhookPOST_unauthenticated_no_mutation cexVerify cexParse cexCfg
      "AAAA-AAAA-AAAA-AAAA" none "body" sampleLicStore).1 rfl
  · exact (webhookPOST_unauthenticated_no_mutation (fun _ _ => false) cexParse
      cexCfg "AAAA-AAAA-AAAA-AAAA" (some "deadbeef") "body" sampleLicStore).2
      "deadbeef" rfl rfl

/-- The store after delivering the identical `order_created` webhook twice to
an empty store; the handler mints a fresh random key on each delivery
(`generateLicenseKey()`), here "AAAA…" on the first and "BBBB…" on the
second. -/
def replayedStore : Store :=
  (webhookPOST cexVerify cexParse cexCfg "BBBB-BBBB-BBBB-BBBB" (some "sig")
    "body"
    (webhookPOST cexVerify cexParse cexCfg "AAAA-AAAA-AAAA-AAAA" (some "sig")
      "body" Store.empty).2).2

/-- Counterexample to C2: replaying the identical `order_created` payload and
signature creates a second, different license record for the same order —
after the replay the store holds two distinct license keys whose records both
carry order id "ord1". -/
theorem webhook_replay_creates_second_license :
    replayedStore.license "AAAA-AAAA-AAAA-AAAA" =
      some ⟨.basic, "buyer@x.io", "2024-03-03", 0, "ord1"⟩ ∧
    replayedStore.license "BBBB-BBBB-BBBB-BBBB" =
      some ⟨.basic, "buyer@x.io", "2024-03-03", 0, "ord1"⟩ ∧
    ("AAAA-AAAA-AAAA-AAAA" : String) ≠ "BBBB-BBBB-BBBB-BBBB" := by
  refine ⟨by decide, by decide, by decide⟩

/-- C2 (amended): re-delivery of an identical, authenticated, paid
`order_created` event with a mapped variant creates one more license record
per delivery: with the two minted keys distinct (the collision-resistant
generator makes them so), the store after the replay holds a license record
under each key, both for the same order, and the order index points at the
key minted by the latest delivery. -/
theorem webhook_replay_two_licenses
    (verify : String → String → Bool) (parse : String → Option WebhookPayload)
    (cfg : VariantConfig) (k1 k2 sig rawBody : String) (p : WebhookPayload)
    (t : PaidTier) (st : Store)
    (hk : k1 ≠ k2)
    (hv : verify rawBody sig = true)
    (hp : parse rawBody = some p)
    (he : p.eventName = "order_created")
    (hs : p.data.status = "paid")
    (ht : getTierFromVariant cfg p.data.variantId = some t) :
    ((webhookPOST verify parse cfg k2 (some sig) rawBody
        (webhookPOST verify parse cfg k1 (some sig) rawBody st).2).2).license k1 =
      some ⟨t, p.data.userEmail, p.data.createdAt, 0, p.data.id⟩ ∧
    ((webhookPOST verify parse cfg k2 (some sig) rawBody
        (webhookPOST verify parse cfg k1 (some sig) rawBody st).2).2).license k2 =
      some ⟨t, p.data.userEmail, p.data.createdAt, 0, p.data.id⟩ ∧
    ((webhookPOST verify parse cfg k2 (some sig) rawBody
        (webhookPOST verify parse cfg k1 (some sig) rawBody st).2).2).orderIdx
      p.data.id = some k2 := by
  have hrun : ∀ stx, (webhookPOST verify parse cfg k1 (some sig) rawBody stx).2 =
      createLicense k1 t p.data.userEmail p.data.createdAt p.data.id stx := by
    intro stx
    simp [webhookPOST, hv, hp, he, handleOrderCreated, hs, ht]
  have hrun2 : ∀ stx, (webhookPOST verify parse cfg k2 (some sig) rawBody stx).2 =
      createLicense k2 t p.data.userEmail p.data.createdAt p.data.id stx := by
    intro stx
    simp [webhookPOST, hv, hp, he, handleOrderCreated, hs, ht]
  rw [hrun, hrun2]
  refine ⟨?_, ?_, ?_⟩
  · simp [createLicense, hk, Ne.symm hk]
  · simp [createLicense]
  · simp [createLicense]

/-- Witness for `webhook_replay_two_licenses` at the concrete replay run. -/
theorem webhook_replay_two_licenses_witness :
    replayedStore.license "AAAA-AAAA-AAAA-AAAA" =
      some ⟨.basic, "buyer@x.io", "2024-03-03", 0, "ord1"⟩ ∧
    replayedStore.license "BBBB-BBBB-BBBB-BBBB" =
      some ⟨.basic, "buyer@x.io", "2024-03-03", 0, "ord1"⟩ ∧
    replayedStore.orderIdx "ord1" = some "BBBB-BBBB-BBBB-BBBB" :=
  webhook_replay_two_licenses cexVerify cexParse cexCfg "AAAA-AAAA-AAAA-AAAA"
    "BBBB-BBBB-BBBB-BBBB" "sig" "body" cexPayload .basic Store.empty
    (by decide) rfl rfl rfl rfl (by decide)

/-- A sample job description within the 50–8000 length window. -/
def sampleJD : String :=
  "We are hiring a senior software engineer to build and maintain scalable backend services."

/-- A sample experience text within the 20–4000 length window. -/
def sampleExp : String :=
  "Six years of backend engineering with Python and Node."

/-- A sample raw request body with no license key. -/
def sampleRawFree : RawReq := ⟨sampleJD, sampleExp, none⟩

/-- The Zod-validated form of `sampleRawFree`. -/
def sampleReqFree : GenReq := ⟨sampleJD, sampleExp, none⟩

/-- A sample raw request body carrying a license key. -/
def sampleRawKey : RawReq := ⟨sampleJD, sampleExp, some "KEY-1"⟩

/-- The Zod-validated form of `sampleRawKey`. -/
def sampleReqKey : GenReq := ⟨sampleJD, sampleExp, some "KEY-1"⟩

/-- A sample text-generation output that parses to exactly one bullet. -/
def sampleGenOut : String :=
  "Led migration of legacy services cutting deploy time by 40 percent"

/-- An external-validator stub reporting a valid license whose product
variant maps to no internal tier. -/
def vlNone : String → LSStatus := fun _ => ⟨true, none, "active"⟩

/-- A store in which IP 9.9.9.9 has used 2 free generations. -/
def storeU2 : Store :=
  { Store.empty with usage := fun k => if k = "9.9.9.9" then 2 else 0 }

/-- A store in which IP 9.9.9.9 has used 3 free generations. -/
def storeU3 : Store :=
  { Store.empty with usage := fun k => if k = "9.9.9.9" then 3 else 0 }

/-- C1: a valid generate request carrying no license key is denied with a
402 `LIMIT_REACHED` (and no state change) when the IP's usage count has
reached the free cap of 3, and otherwise the entitlement decision allows it
as free tier with reported remaining `3 - usageCount - 1`. -/
theorem generate_free_quota (clientIp : String) (raw : RawReq) (req : GenReq)
    (validateLicense : String → LSStatus) (genResult : Option String)
    (today : String) (st : Store)
    (hzod : zodParse raw = some req)
    (hkey : req.licenseKey = none)
    (hvi : validateInput req.jobDescription req.experience = true) :
    (FREE_TIER_maxGenerations ≤ st.usage clientIp →
      generatePOST false clientIp (some raw) validateLicense genResult today st =
        (⟨402, .err .LIMIT_REACHED⟩, st)) ∧
    (st.usage clientIp < FREE_TIER_maxGenerations →
      decideEntitlement validateLicense clientIp req st =
        .allow false .free clientIp
          ((FREE_TIER_maxGenerations : Int) - st.usage clientIp - 1)) := by
  constructor
  · intro hge
    simp [generatePOST, hzod, hvi, decideEntitlement, hkey, getUsageCount, hge]
  · intro hlt
    simp [decideEntitlement, hkey, getUsageCount, Nat.not_le.mpr hlt]

/-- Witness for `generate_free_quota`: at usage count 3 the request is
denied with `LIMIT_REACHED`; at usage count 2 it is allowed with reported
remaining 0. -/
theorem generate_free_quota_witness :
    generatePOST false "9.9.9.9" (some sampleRawFree) vlNone (some sampleGenOut)
      "2024-05-05" storeU3 = (⟨402, .err .LIMIT_REACHED⟩, storeU3) ∧
    decideEntitlement vlNone "9.9.9.9" sampleReqFree storeU2 =
      .allow false .free "9.9.9.9" 0 := by
  constructor
  · exact (generate_free_quota "9.9.9.9" sampleRawFree sampleReqFree vlNone
      (some sampleGenOut) "2024-05-05" storeU3 (by decide) rfl (by decide)).1
      (by decide)
  · exact ((generate_free_quota "9.9.9.9" sampleRawFree sampleReqFree vlNone
      (some sampleGenOut) "2024-05-05" storeU2 (by decide) rfl (by decide)).2
      (by decide)).trans (by decide)

/-- C4: a valid generate request carrying a license key whose external
validation maps the product variant to no internal tier (`tier = null`) is
denied with a 402 `INVALID_LICENSE` and no state change — the `isValid` flag
of the validation is not consulted. -/
theorem generate_unmapped_tier_denied (clientIp : String) (raw : RawReq)
    (req : GenReq) (key : String) (validateLicense : String → LSStatus)
    (genResult : Option String) (today : String) (st : Store)
    (hzod : zodParse raw = some req)
    (hkey : req.licenseKey = some key)
    (hvi : validateInput req.jobDescription req.experience = true)
    (htier : (validateLicense key).tier = none) :
    generatePOST false clientIp (some raw) validateLicense genResult today st =
      (⟨402, .err .INVALID_LICENSE⟩, st) := by
  simp [generatePOST, hzod, hvi, decideEntitlement, hkey, htier]

/-- Witness for `generate_unmapped_tier_denied`: the stub validator reports
`isValid = true` with a null tier, and the request is still denied with
`INVALID_LICENSE`. -/
theorem generate_unmapped_tier_denied_witness :
    generatePOST false "9.9.9.9" (some sampleRawKey) vlNone (some sampleGenOut)
      "2024-05-05" storeU2 = (⟨402, .err .INVALID_LICENSE⟩, storeU2) ∧
    (vlNone "KEY-1").isValid = true :=
  ⟨generate_unmapped_tier_denied "9.9.9.9" sampleRawKey sampleReqKey "KEY-1"
    vlNone (some sampleGenOut) "2024-05-05" storeU2 (by decide) rfl (by decide)
    rfl, rfl⟩

/-- C3: on any allowed generate request, if the text-generation collaborator
throws or its output parses to zero bullets, the response is a 500
`GENERATION_FAILED` and the store is returned exactly as it was — no usage
counter (IP-keyed or license-keyed) is incremented; charging happens only
strictly after generation success. -/
theorem generation_failure_no_charge (clientIp : String) (raw : RawReq)
    (req : GenReq) (validateLicense : String → LSStatus)
    (genResult : Option String) (today : String) (st : Store)
    (licensePresent : Bool) (tier : Tier) (identifier : String)
    (remaining : Int)
    (hzod : zodParse raw = some req)
    (hvi : validateInput req.jobDescription req.experience = true)
    (hallow : decideEntitlement validateLicense clientIp req st =
      .allow licensePresent tier identifier remaining)
    (hfail : genFailed genResult = true) :
    generatePOST false clientIp (some raw) validateLicense genResult today st =
      (⟨500, .err .GENERATION_FAILED⟩, st) := by
  cases genResult with
  | none => simp [generatePOST, hzod, hvi, hallow, afterEntitlement]
  | some content =>
    have hl : (parseBulletPoints content).length = 0 := by
      simpa [genFailed] using hfail
    simp [generatePOST, hzod, hvi, hallow, afterEntitlement, hl]

/-- Witness for `generation_failure_no_charge`: with 2 of 3 free generations
used, a thrown generation call and an output that parses to zero bullets
both produce `GENERATION_FAILED` with the counter untouched. -/
theorem generation_failure_no_charge_witness :
    generatePOST false "9.9.9.9" (some sampleRawFree) vlNone none "2024-05-05"
      storeU2 = (⟨500, .err .GENERATION_FAILED⟩, storeU2) ∧
    generatePOST false "9.9.9.9" (some sampleRawFree) vlNone (some "nothing")
      "2024-05-05" storeU2 = (⟨500, .err .GENERATION_FAILED⟩, storeU2) :=
  ⟨generation_failure_no_charge "9.9.9.9" sampleRawFree sampleReqFree vlNone
    none "2024-05-05" storeU2 false .free "9.9.9.9" 0 (by decide) (by decide)
    (by decide) rfl,
   generation_failure_no_charge "9.9.9.9" sampleRawFree sampleReqFree vlNone
    (some "nothing") "2024-05-05" storeU2 false .free "9.9.9.9" 0 (by decide)
    (by decide) (by decide) (by decide)⟩

/-- The parser caps its output at 10 bullets (`.slice(0, 10)`). -/
theorem parseBulletPoints_le_ten (response : String) :
    (parseBulletPoints response).length ≤ 10 := by
  unfold parseBulletPoints
  simp

/-- Shape of a well-formed success body of the generate endpoint: between 1
and 10 bullets, a non-negative remaining count, and a tier drawn from the
free/basic/lifetime enumeration; an error body never qualifies. -/
def okResponseShape : RespBody → Prop
  | .ok ob => 1 ≤ ob.bullets.length ∧ ob.bullets.length ≤ 10 ∧
      0 ≤ ob.remaining ∧
      (ob.tier = .free ∨ ob.tier = .basic ∨ ob.tier = .lifetime)
  | .err _ => False

/-- Every denial of the entitlement chain carries HTTP status 402. -/
theorem decideEntitlement_deny_status (validateLicense : String → LSStatus)
    (clientIp : String) (req : GenReq) (st : Store) (r : Resp)
    (h : decideEntitlement validateLicense clientIp req st = .deny r) :
    r.status = 402 := by
  unfold decideEntitlement at h
  dsimp only at h
  split at h
  · split at h
    · injection h with h2
      subst h2
      rfl
    · split at h
      · injection h with h2
        subst h2
        rfl
      · split at h
        · injection h with h2
          subst h2
          rfl
        · split at h
          · split at h
            · injection h with h2
              subst h2
              rfl
            · exact Entitlement.noConfusion h
          · exact Entitlement.noConfusion h
  · split at h
    · injection h with h2
      subst h2
      rfl
    · exact Entitlement.noConfusion h

/-- Every allowance of the entitlement chain carries a non-negative
remaining count: free allows with `3 - usageCount - 1` under `usageCount <
3`, basic allows with a positive floored remainder, lifetime with 999. -/
theorem decideEntitlement_allow_nonneg (validateLicense : String → LSStatus)
    (clientIp : String) (req : GenReq) (st : Store) (lp : Bool) (t : Tier)
    (id : String) (r : Int)
    (h : decideEntitlement validateLicense clientIp req st = .allow lp t id r) :
    0 ≤ r := by
  unfold decideEntitlement at h
  dsimp only at h
  split at h
  · split at h
    · exact Entitlement.noConfusion h
    · split at h
      · exact Entitlement.noConfusion h
      · split at h
        · exact Entitlement.noConfusion h
        · split at h
          · split at h
            · exact Entitlement.noConfusion h
            · injection h with e1 e2 e3 e4
              subst e4
              exact le_max_left 0 _
          · injection h with e1 e2 e3 e4
            subst e4
            decide
  · split at h
    · exact Entitlement.noConfusion h
    · rename_i hlt
      injection h with e1 e2 e3 e4
      subst e4
      have hu : getUsageCount st clientIp < FREE_TIER_maxGenerations :=
        Nat.lt_of_not_le hlt
      unfold FREE_TIER_maxGenerations at hu ⊢
      omega

/-- The post-entitlement tail only answers 200 when the parsed bullets are
non-empty, and then the body satisfies the success shape (given the
entitlement remaining was non-negative). -/
theorem afterEntitlement_ok_shape (lp : Bool) (t : Tier) (id : String)
    (r : Int) (genResult : Option String) (today : String) (st : Store)
    (hr : 0 ≤ r)
    (h : (afterEntitlement lp t id r genResult today st).1.status = 200) :
    okResponseShape (afterEntitlement lp t id r genResult today st).1.body := by
  cases genResult with
  | none => simp [afterEntitlement] at h
  | some content =>
    by_cases hb : (parseBulletPoints content).length = 0
    · simp [afterEntitlement, hb] at h
    · have h1 : 1 ≤ (parseBulletPoints content).length :=
        Nat.one_le_iff_ne_zero.mpr hb
      have h10 := parseBulletPoints_le_ten content
      cases t <;> by_cases hc : lp = true <;>
        simp_all [afterEntitlement, okResponseShape]

/-- C9: every 200 response of the generate endpoint carries a success body
with between 1 and 10 bullets, a non-negative integer remaining count, and a
tier equal to free, basic or lifetime. -/
theorem generate_ok_response_shape (rateLimited : Bool) (clientIp : String)
    (body : Option RawReq) (validateLicense : String → LSStatus)
    (genResult : Option String) (today : String) (st : Store)
    (h : (generatePOST rateLimited clientIp body validateLicense genResult
      today st).1.status = 200) :
    okResponseShape (generatePOST rateLimited clientIp body validateLicense
      genResult today st).1.body := by
  have key : ∀ resp st2,
      generatePOST rateLimited clientIp body validateLicense genResult today
        st = (resp, st2) →
      resp.status = 200 → okResponseShape resp.body := by
    intro resp st2 hEq h200
    unfold generatePOST at hEq
    split at hEq
    · cases hEq; simp at h200
    · split at hEq
      · cases hEq; simp at h200
      · split at hEq
        · cases hEq; simp at h200
        · split at hEq
          · cases hEq; simp at h200
          · split at hEq
            · rename_i r0 heq
              injection hEq with e1 e2
              subst e1
              have h402 := decideEntitlement_deny_status _ _ _ _ _ heq
              omega
            · rename_i lp t id r heq
              have hnn := decideEntitlement_allow_nonneg _ _ _ _ _ _ _ _ heq
              have h1 : (afterEntitlement lp t id r genResult today st).1 =
                  resp := by
                rw [hEq]
              rw [← h1] at h200 ⊢
              exact afterEntitlement_ok_shape lp t id r genResult today st
                hnn h200
  have hpair : generatePOST rateLimited clientIp body validateLicense
      genResult today st =
      ((generatePOST rateLimited clientIp body validateLicense genResult
        today st).1,
       (generatePOST rateLimited clientIp body validateLicense genResult
        today st).2) := rfl
  exact key _ _ hpair h

/-- Witness for `generate_ok_response_shape`: a successful free-tier run
returns a 200 whose body satisfies the success shape. -/
theorem generate_ok_response_shape_witness :
    okResponseShape (generatePOST false "9.9.9.9" (some sampleRawFree) vlNone
      (some sampleGenOut) "2024-05-05" storeU2).1.body :=
  generate_ok_response_shape false "9.9.9.9" (some sampleRawFree) vlNone
    (some sampleGenOut) "2024-05-05" storeU2 (by decide)
